import Mathlib

/-!
Verification of the `SideNav` navigation renderer of the atg-code-docs
site (source: `src/pages/index.md`, embedded TSX component).

The component is a pure function of the current route path
(`router.pathname`) and a module-level constant `items` holding the
two-level navigation configuration.  We embed the configuration data and
the rendering logic shallowly: JSX elements become Lean structures whose
fields record exactly the data the markup carries (keys, class names,
anchor targets, anchor labels), and the `.map` pipelines of the component
body become `List.map` over those structures.
-/

namespace AtgDocs

/-- A second-level navigation entry (`{href, children}` in the source);
sub-links carry no further nesting. -/
structure SubLink where
  href : String
  children : String
deriving DecidableEq

/-- A top-level navigation link (`{href, children, sub?}` in the source).
The optional `sub` array holds the one level of nested sub-links. -/
structure NavLink where
  href : String
  children : String
  sub : Option (List SubLink)
deriving DecidableEq

/-- A navigation section (`{title, links}` in the source). -/
structure NavSection where
  title : String
  links : List NavLink
deriving DecidableEq

/-- The static navigation configuration `items` from `src/pages/index.md`,
transcribed verbatim. -/
def items : List NavSection :=
  [ { title := "Code",
      links :=
        [ { href := "/docs/code/es6", children := "ES6 Tips",
            sub := some
              [ { href := "/docs/code/es6/array", children := "Array" },
                { href := "/docs/code/es6/boolean", children := "Boolean" },
                { href := "/docs/code/es6/date", children := "Date" },
                { href := "/docs/code/es6/math", children := "Math" },
                { href := "/docs/code/es6/number", children := "Number" },
                { href := "/docs/code/es6/object", children := "Object" },
                { href := "/docs/code/es6/string", children := "String" },
                { href := "/docs/code/es6/misc", children := "Miscellaneous" } ] },
          { href := "/docs/code/quality", children := "Code Quality",
            sub := some
              [ { href := "/docs/code/quality/iterative-code", children := "Iterative Code" },
                { href := "/docs/code/quality/variable-naming", children := "Variable Naming" } ] },
          { href := "/docs/code/typescript", children := "Typescript",
            sub := some
              [ { href := "/docs/code/quality/utility-types", children := "Utility Types" },
                { href := "/docs/code/quality/additional-resources", children := "Additional Resources" } ] } ] },
    { title := "React",
      links :=
        [ { href := "/docs/react", children := "Introduction", sub := none },
          { href := "/docs/react/handling-state", children := "Handling State", sub := none } ] } ]

/-- The rendered `<li>` for a sub-link: its React key, its `className`
(`'active'` or `''`), and the `<Link>`'s target and label. -/
structure RenderedSubItem where
  key : String
  className : String
  anchorHref : String
  anchorLabel : String
deriving DecidableEq

/-- The rendered `<li>` for a top-level link, with the optional nested
`<ul>` of rendered sub-links. -/
structure RenderedLinkItem where
  key : String
  className : String
  anchorHref : String
  anchorLabel : String
  subList : Option (List RenderedSubItem)
deriving DecidableEq

/-- The rendered `<div className="sidenav__group">` for one section. -/
structure RenderedGroup where
  key : String
  groupClass : String
  title : String
  linkItems : List RenderedLinkItem
deriving DecidableEq

/-- The rendered `<nav className="sidenav">` element. -/
structure RenderedNav where
  navClass : String
  groups : List RenderedGroup
deriving DecidableEq

/-- Rendering of one sub-link `<li>`: `subActive` is
`router.pathname === sublink.href` in the source. -/
def renderSubLink (pathname : String) (sublink : SubLink) : RenderedSubItem :=
  let subActive := pathname == sublink.href
  { key := sublink.href,
    className := if subActive then "active" else "",
    anchorHref := sublink.href,
    anchorLabel := sublink.children }

/-- Rendering of one top-level link `<li>`: `active` is
`router.pathname === link.href`; the nested `<ul>` is emitted exactly when
`link.sub` is present (`link.sub && <ul>...</ul>`). -/
def renderLink (pathname : String) (link : NavLink) : RenderedLinkItem :=
  let active := pathname == link.href
  { key := link.href,
    className := if active then "active" else "",
    anchorHref := link.href,
    anchorLabel := link.children,
    subList := link.sub.map (fun subs => subs.map (renderSubLink pathname)) }

/-- Rendering of one section `<div className="sidenav__group">`. -/
def renderGroup (pathname : String) (item : NavSection) : RenderedGroup :=
  { key := item.title,
    groupClass := "sidenav__group",
    title := item.title,
    linkItems := item.links.map (renderLink pathname) }

/-- The `SideNav` component as a function of the current route path. -/
def SideNav (pathname : String) : RenderedNav :=
  { navClass := "sidenav",
    groups := items.map (renderGroup pathname) }

/-- A flattened view of one rendered entry (top-level link or sub-link):
its anchor target, its anchor label, and its `className`. -/
structure FlatEntry where
  href : String
  label : String
  className : String
deriving DecidableEq

/-- The flat entries contributed by one rendered top-level `<li>`:
the link itself followed by its rendered sub-links, in document order. -/
def itemEntries (r : RenderedLinkItem) : List FlatEntry :=
  { href := r.anchorHref, label := r.anchorLabel, className := r.className } ::
    (match r.subList with
      | some l => l.map (fun s =>
          { href := s.anchorHref, label := s.anchorLabel, className := s.className })
      | none => [])

/-- The flat entries of one rendered section, in document order. -/
def groupEntries (g : RenderedGroup) : List FlatEntry :=
  g.linkItems.flatMap itemEntries

/-- All flat entries of the rendered navigation, in document order. -/
def navEntries (n : RenderedNav) : List FlatEntry :=
  n.groups.flatMap groupEntries

/-- The declared hrefs contributed by one configured link: the link's own
href followed by its sub-links' hrefs, in declared order. -/
def linkHrefs (l : NavLink) : List String :=
  l.href ::
    (match l.sub with
      | some subs => subs.map SubLink.href
      | none => [])

/-- The declared hrefs of one configured section, in declared order. -/
def sectionHrefs (s : NavSection) : List String :=
  s.links.flatMap linkHrefs

/-- Every href declared in the static configuration, in declared order. -/
def allHrefs : List String :=
  items.flatMap sectionHrefs

/-- The rendering in an error monad: the component body consists only of
list maps, string comparisons and constant markup, so its translation into
`Except` contains no throw. -/
def SideNavE (pathname : String) : Except String RenderedNav :=
  Except.ok (SideNav pathname)

/-- Whether an `Except` rendering result is a success. -/
def exceptIsOk : Except String RenderedNav → Bool
  | Except.ok _ => true
  | Except.error _ => false

/-- State-passing form of the component: it receives the configuration as
the mutable module state and returns the rendered output together with the
state after the body has run; the body only reads the configuration. -/
def SideNavSt (pathname : String) (st : List NavSection) :
    RenderedNav × List NavSection :=
  ({ navClass := "sidenav", groups := st.map (renderGroup pathname) }, st)

/-- Erase the `className` of a rendered sub-link `<li>`. -/
def stripSubClass (s : RenderedSubItem) : RenderedSubItem :=
  { s with className := "" }

/-- Erase the `className` of a rendered top-level `<li>` and of its
rendered sub-links. -/
def stripLinkClass (r : RenderedLinkItem) : RenderedLinkItem :=
  { r with className := "",
           subList := r.subList.map (fun l => l.map stripSubClass) }

/-- Erase every active-marking `className` in a rendered navigation. -/
def stripNavClasses (n : RenderedNav) : RenderedNav :=
  { n with groups := n.groups.map (fun g =>
      { g with linkItems := g.linkItems.map stripLinkClass }) }

/-- The marker string computed by the component is the string `active`
exactly when the compared href equals the current path. -/
theorem active_class_iff (p h : String) :
    ((if p == h then "active" else "") = "active") ↔ h = p := by
  by_cases hc : p = h
  · subst hc
    simp
  · have hb : (p == h) = false := beq_eq_false_iff_ne.mpr hc
    rw [hb]
    constructor
    · intro he
      exact absurd he (by decide)
    · intro he
      exact absurd he.symm hc

/-- Every flat entry produced by rendering one top-level link carries the
marker determined by comparing the current path with that entry's href. -/
theorem itemEntries_shape (p : String) (l : NavLink) :
    ∀ e ∈ itemEntries (renderLink p l),
      e.className = (if p == e.href then "active" else "") := by
  intro e he
  cases hs : l.sub with
  | none =>
      simp [itemEntries, renderLink, hs] at he
      subst he
      simp
  | some subs =>
      simp [itemEntries, renderLink, hs, List.mem_map] at he
      rcases he with he | ⟨s, _, he⟩
      · subst he
        simp
      · subst he
        simp [renderSubLink]

/-- Every flat entry of the rendered navigation carries the marker
determined by comparing the current path with that entry's href. -/
theorem navEntries_shape (p : String) :
    ∀ e ∈ navEntries (SideNav p),
      e.className = (if p == e.href then "active" else "") := by
  intro e he
  simp only [navEntries, SideNav, groupEntries, renderGroup, List.mem_flatMap,
    List.mem_map] at he
  obtain ⟨g, ⟨sec, hsec, hg⟩, heg⟩ := he
  subst hg
  simp only [List.mem_flatMap, List.mem_map] at heg
  obtain ⟨r, ⟨l, hl, hr⟩, her⟩ := heg
  subst hr
  exact itemEntries_shape p l e her

/-- Claim C1: a rendered entry (top-level link or sub-link) carries the
`active` class exactly when its declared href equals the current route
path, and for every declared href, rendering at that path marks exactly
the one entry with that href active. -/
theorem sideNav_marks_active_iff_href_matches :
    (∀ p : String, ∀ e ∈ navEntries (SideNav p),
        e.className = "active" ↔ e.href = p) ∧
    (∀ h ∈ allHrefs,
        ((navEntries (SideNav h)).filter
            (fun e => e.className == "active")).map FlatEntry.href = [h]) := by
  refine ⟨?_, ?_⟩
  · intro p e he
    rw [navEntries_shape p e he]
    exact active_class_iff p e.href
  · decide

/-- Witness for C1 at path `/docs/code/es6` and href `/docs/react`. -/
theorem sideNav_marks_active_iff_href_matches_witness :
    ((⟨"/docs/code/es6", "ES6 Tips", "active"⟩ : FlatEntry)
        ∈ navEntries (SideNav "/docs/code/es6")) ∧
    ((⟨"/docs/code/es6", "ES6 Tips", "active"⟩ : FlatEntry).className = "active"
      ↔ (⟨"/docs/code/es6", "ES6 Tips", "active"⟩ : FlatEntry).href = "/docs/code/es6") ∧
    ("/docs/react" ∈ allHrefs) ∧
    (((navEntries (SideNav "/docs/react")).filter
        (fun e => e.className == "active")).map FlatEntry.href = ["/docs/react"]) :=
  ⟨by decide,
   sideNav_marks_active_iff_href_matches.1 "/docs/code/es6" _ (by decide),
   by decide,
   sideNav_marks_active_iff_href_matches.2 "/docs/react" (by decide)⟩

/-- Claim C2: for every current route path, every configured sub-link is
rendered nested exactly one level under its parent link, in declared
order, with its declared target and label; the rendered sub-structure
never depends on the current path. -/
theorem sideNav_renders_all_sublinks (p : String) :
    (SideNav p).groups.map (fun g => g.linkItems.map (fun r =>
        r.subList.map (fun l => l.map (fun s => (s.anchorHref, s.anchorLabel)))))
      = items.map (fun sec => sec.links.map (fun l =>
          l.sub.map (fun subs => subs.map (fun s => (s.href, s.children))))) := rfl

/-- Claim C3: the hrefs declared in the static configuration are pairwise
distinct across the whole tree. -/
theorem allHrefs_nodup : allHrefs.Nodup := by decide

/-- Claim C4: rendering is deterministic; two renderings with the same
current route path produce identical output. -/
theorem sideNav_deterministic (p₁ p₂ : String) (h : p₁ = p₂) :
    SideNav p₁ = SideNav p₂ := by rw [h]

/-- Witness for C4 at path `/docs/react`. -/
theorem sideNav_deterministic_witness :
    SideNav "/docs/react" = SideNav "/docs/react" :=
  sideNav_deterministic "/docs/react" "/docs/react" rfl

/-- Claim C5: at current route path `/docs/react/handling-state`, the
Handling State link is marked active, the Introduction link is not, and
no other entry is marked active. -/
theorem sideNav_handling_state_scenario :
    ((⟨"/docs/react/handling-state", "Handling State", "active"⟩ : FlatEntry)
        ∈ navEntries (SideNav "/docs/react/handling-state")) ∧
    ((⟨"/docs/react", "Introduction", ""⟩ : FlatEntry)
        ∈ navEntries (SideNav "/docs/react/handling-state")) ∧
    (((navEntries (SideNav "/docs/react/handling-state")).filter
        (fun e => e.className == "active")).map FlatEntry.href
      = ["/docs/react/handling-state"]) := by
  decide

/-- Claim C6: rendering is total; for every input route path, the
`Except`-embedded rendering returns a success and the error branch is
unreachable. -/
theorem sideNav_total (p : String) :
    exceptIsOk (SideNavE p) = true ∧ SideNavE p = Except.ok (SideNav p) :=
  ⟨rfl, rfl⟩

/-- Claim C7: for every current route path, the rendered anchor targets,
as a multiset (in fact as an ordered list), are exactly the hrefs declared
in the static configuration. -/
theorem sideNav_anchor_targets (p : String) :
    (navEntries (SideNav p)).map FlatEntry.href = allHrefs ∧
    ((((navEntries (SideNav p)).map FlatEntry.href) : Multiset String)
      = (allHrefs : Multiset String)) :=
  ⟨rfl, rfl⟩

/-- Claim C8: rendering never mutates the static configuration: in the
state-passing form of the component, the configuration after rendering
equals its build-time value, and the output agrees with `SideNav`. -/
theorem sideNav_preserves_items (p : String) :
    (SideNavSt p items).2 = items ∧ (SideNavSt p items).1 = SideNav p :=
  ⟨rfl, rfl⟩

/-- Claim C9: the current route path influences only the active marking:
after erasing every `className`, the outputs for any two paths are
identical. -/
theorem sideNav_path_affects_only_active (p₁ p₂ : String) :
    stripNavClasses (SideNav p₁) = stripNavClasses (SideNav p₂) := rfl

/-- Claim C10: rendering preserves declaration order: for every current
route path, sections, links and sub-links appear in the output in exactly
their declared order. -/
theorem sideNav_preserves_order (p : String) :
    (SideNav p).groups.map (fun g => (g.title, g.linkItems.map (fun r =>
        (r.anchorHref, (match r.subList with
          | some l => l.map RenderedSubItem.anchorHref
          | none => [])))))
      = items.map (fun sec => (sec.title, sec.links.map (fun l =>
          (l.href, (match l.sub with
            | some subs => subs.map SubLink.href
            | none => []))))) := rfl

end AtgDocs
